import Mathlib

/-!
Shallow embedding of `scale/users.py` (the `User` provisioner class).

Every external service interaction (identity, network, compute clients and the
`Router` / `KeyPair` collaborators) is modelled by an explicit environment that
supplies the responses the remote side would give, and each operation returns,
along with its result and updated object state, the ordered trace of external
calls it issued.  The theorems below settle the frozen claims about this code.
-/

set_option autoImplicit false

namespace ScaleUsers

/-- An identity-service account record; `id` and `name` are the only fields
`users.py` reads from the objects returned by the keystone users API. -/
structure Account where
  id : String
  name : String
deriving DecidableEq, Repr

/-- An identity-service role record; `name` is compared against the requested
role name and the whole object is then passed to `add_user_role`. -/
structure Role where
  id : String
  name : String
deriving DecidableEq, Repr

/-- The Python exceptions `users.py` distinguishes: `keystone_exception.Conflict`
carries an `http_status`; any other client exception class is opaque to this
module; `exception msg` is the bare `Exception(msg)` raised on the repair path. -/
inductive PyError where
  | conflict (http_status : Nat)
  | otherClientError (tag : String)
  | exception (msg : String)
deriving DecidableEq, Repr

/-- Whether an error is the `Conflict` with HTTP status 409 that `_get_user`
repairs; every other error is re-raised unchanged. -/
def PyError.isConflict409 : PyError → Bool
  | .conflict s => s == 409
  | _ => false

/-- Modelled from the spec: `base_network.Router` is an external collaborator,
created empty then populated.  We keep only what `users.py` observes of it: the
name and external network passed to `create_router`, and the first network and
instance list its read accessors report. -/
structure Router where
  router_name : Option String := none
  external_network : Option String := none
  first_network : Option String := none
  instances : List String := []
deriving DecidableEq, Repr

/-- Modelled from the spec: the router reports its first network. -/
def Router.get_first_network (r : Router) : Option String :=
  r.first_network

/-- Modelled from the spec: the router reports the instances it owns. -/
def Router.get_all_instances (r : Router) : List String :=
  r.instances

/-- Modelled from the spec: `base_compute.KeyPair` holds a named public key
registered with the compute service. -/
structure KeyPair where
  key_name : Option String := none
deriving DecidableEq, Repr

/-- The scale-configuration keys `users.py` reads from `tenant.kloud.scale_cfg`:
`public_key_file` (optional string, checked for truthiness),
`use_floatingip` (truthiness of the stored value), presence of the
`redis_server` key, and the required `routers_per_user` count. -/
structure ScaleCfg where
  public_key_file : Option String
  use_floatingip : Bool
  redis_server_present : Bool
  routers_per_user : Nat
deriving DecidableEq, Repr

/-- Python truthiness of an optional string: absent and empty are falsy. -/
def strTruthy : Option String → Bool
  | none => false
  | some s => !s.isEmpty

/-- The slice of the kloud object `users.py` reads. -/
structure Kloud where
  auth_url : String
  scale_cfg : ScaleCfg
deriving DecidableEq, Repr

/-- The slice of the tenant object `users.py` reads. -/
structure Tenant where
  tenant_name : String
  tenant_id : String
  kloud : Kloud
deriving DecidableEq, Repr

/-- The credential dictionary handed to `neutronclient.Client`. -/
structure NeutronCreds where
  username : String
  password : String
  auth_url : String
  tenant_name : String
deriving DecidableEq, Repr

/-- The credential dictionary handed to the nova `Client`. -/
structure NovaCreds where
  username : String
  api_key : String
  auth_url : String
  project_id : String
  version : Nat
deriving DecidableEq, Repr

/-- One observable call to an external service or collaborator, recorded in
program order. -/
inductive Call where
  | usersCreate (name password email tenant_id : String)
  | usersList
  | usersDelete (user_id : Option String)
  | rolesList
  | addUserRole (user_id : String) (role : Option Role) (tenant_id : String)
  | neutronClientNew (c : NeutronCreds)
  | novaClientNew (c : NovaCreds)
  | keyPairAdd (key_name public_key_file : String)
  | keyPairRemove
  | findExternalNetwork
  | routerCreate (router_name : String) (external_network : Option String)
  | routerCreateNetworkResources
  | routerDelete
deriving DecidableEq, Repr

/-- Whether a call is an identity-service create-user call. -/
def Call.isUsersCreate : Call → Bool
  | .usersCreate _ _ _ _ => true
  | _ => false

/-- Whether a call is a role-binding call. -/
def Call.isAddUserRole : Call → Bool
  | .addUserRole _ _ _ => true
  | _ => false

/-- Whether a call is a `create_router` call on a router collaborator. -/
def Call.isRouterCreate : Call → Bool
  | .routerCreate _ _ => true
  | _ => false

/-- Whether a call is a `delete_router` call on a router collaborator. -/
def Call.isRouterDelete : Call → Bool
  | .routerDelete => true
  | _ => false

/-- The fields of the `User` object, exactly those assigned in `users.py`. -/
structure User where
  user_name : String
  tenant : Tenant
  user_id : Option String := none
  router_list : List Router := []
  neutron_client : Option NeutronCreds := none
  nova_client : Option NovaCreds := none
  admin_user : Option Account := none
  key_pair : Option KeyPair := none
  key_name : Option String := none
deriving DecidableEq, Repr

/-- Environment for `_get_user`: the responses the identity service gives to the
calls that function can make (the first create attempt, the full user listing,
and the retry create attempt). -/
structure GetUserEnv where
  firstCreate : Except PyError Account
  users_list : List Account
  retryCreate : Except PyError Account
deriving Repr

/-- The create-user call issued by `_create_user`: the password equals the user
name, the email is the fixed placeholder, and the tenant id is passed along. -/
def createUserCall (user_name tenant_id : String) : Call :=
  .usersCreate user_name user_name "kloudbuster@localhost" tenant_id

/-- `User._get_user`: attempt the create; on a `Conflict` whose HTTP status is
409, list all users, delete the first whose name matches and retry the create
once; re-raise any `Conflict` with a different status and any other error
unchanged; raise a bare `Exception` naming the user when no stale account with a
matching name is found in the listing. -/
def get_user (user_name tenant_id : String) (env : GetUserEnv) :
    Except PyError Account × List Call :=
  match env.firstCreate with
  | .ok user => (.ok user, [createUserCall user_name tenant_id])
  | .error exc =>
    match exc with
    | .conflict http_status =>
      if http_status ≠ 409 then
        (.error exc, [createUserCall user_name tenant_id])
      else
        match env.users_list.find? (fun u => u.name == user_name) with
        | some u =>
          (env.retryCreate,
           [createUserCall user_name tenant_id, .usersList,
            .usersDelete (some u.id), createUserCall user_name tenant_id])
        | none =>
          (.error (.exception ("Cannot find stale user:" ++ user_name)),
           [createUserCall user_name tenant_id, .usersList])
    | _ => (.error exc, [createUserCall user_name tenant_id])

/-- Environment for `__init__`: the `_get_user` responses plus the role listing
and the outcome of the role-binding call. -/
structure InitEnv where
  firstCreate : Except PyError Account
  users_list : List Account
  retryCreate : Except PyError Account
  roles_list : List Role
  addRoleResult : Except PyError Unit
deriving Repr

/-- Restrict an `__init__` environment to the slice `_get_user` consumes. -/
def InitEnv.toGetUserEnv (e : InitEnv) : GetUserEnv :=
  { firstCreate := e.firstCreate, users_list := e.users_list,
    retryCreate := e.retryCreate }

/-- `User.__init__`: store the fields, obtain the account via `_get_user`, scan
the role listing for the first role whose name equals the requested role name
(leaving the reference `None` when no role matches), bind that role to the new
user within the tenant, then set `user_id` to the account id. -/
def user_init (user_name : String) (tenant : Tenant) (user_role : String)
    (env : InitEnv) : Except PyError User × List Call :=
  match get_user user_name tenant.tenant_id env.toGetUserEnv with
  | (.error e, calls) => (.error e, calls)
  | (.ok admin_user, calls) =>
    let current_role := env.roles_list.find? (fun r => r.name == user_role)
    let calls := calls ++
      [.rolesList, .addUserRole admin_user.id current_role tenant.tenant_id]
    match env.addRoleResult with
    | .error e => (.error e, calls)
    | .ok _ =>
      (.ok { user_name := user_name, tenant := tenant,
             admin_user := some admin_user, user_id := some admin_user.id },
       calls)

/-- Per-iteration outcome of the delegated router calls inside the creation
loop of `create_resources`. -/
inductive RouterStep where
  | ok
  | createFail (e : PyError)
  | resourceFail (e : PyError)
deriving DecidableEq, Repr

/-- Environment for `create_resources`: the network `find_external_network`
would resolve, and the outcome of the delegated router calls at each index. -/
structure CreateEnv where
  external_net : String
  router_step : Nat → RouterStep

/-- The router-creation loop of `create_resources`, for indices `k`, `k+1`, ...
over `n` remaining iterations: construct an empty `Router`, append it to the
list, call `create_router` with the indexed name and the resolved external
network, then `create_network_resources`; the first delegated failure aborts the
loop with the failing router already appended. -/
def createRouters (user_name : String) (ext : Option String)
    (step : Nat → RouterStep) : Nat → Nat → List Router × List Call × Option PyError
  | _, 0 => ([], [], none)
  | k, n + 1 =>
    let router_name := user_name ++ "-R" ++ Nat.repr k
    match step k with
    | .ok =>
      let r : Router := { router_name := some router_name, external_network := ext }
      let rest := createRouters user_name ext step (k + 1) n
      (r :: rest.1,
       .routerCreate router_name ext :: .routerCreateNetworkResources :: rest.2.1,
       rest.2.2)
    | .createFail e =>
      ([{}], [.routerCreate router_name ext], some e)
    | .resourceFail e =>
      ([{ router_name := some router_name, external_network := ext }],
       [.routerCreate router_name ext, .routerCreateNetworkResources], some e)

/-- The external network `create_resources` resolves for its routers: looked up
exactly when floating IPs are in use or a redis server is configured, `None`
otherwise. -/
def resolvedExternalNet (cfg : ScaleCfg) (env : CreateEnv) : Option String :=
  if cfg.use_floatingip || cfg.redis_server_present then some env.external_net
  else none

/-- `User.create_resources`: build and store the neutron and nova clients,
create and register the keypair when a public-key file is configured, resolve
the external network when floating IPs are in use or a redis server is
configured, then create `routers_per_user` routers in index order, appending
each to `router_list` before its `create_router` call.  Returns the outcome,
the updated user and the call trace. -/
def create_resources (u : User) (env : CreateEnv) :
    Except PyError Unit × User × List Call :=
  let creden : NeutronCreds :=
    { username := u.user_name, password := u.user_name,
      auth_url := u.tenant.kloud.auth_url, tenant_name := u.tenant.tenant_name }
  let creden_nova : NovaCreds :=
    { username := u.user_name, api_key := u.user_name,
      auth_url := u.tenant.kloud.auth_url, project_id := u.tenant.tenant_name,
      version := 2 }
  let config_scale := u.tenant.kloud.scale_cfg
  let u1 : User := { u with neutron_client := some creden,
                            nova_client := some creden_nova }
  let keyed : User × List Call :=
    if strTruthy config_scale.public_key_file then
      ({ u1 with key_pair := some { key_name := some (u.user_name ++ "-K") },
                 key_name := some (u.user_name ++ "-K") },
       [.keyPairAdd (u.user_name ++ "-K") (config_scale.public_key_file.getD "")])
    else (u1, [])
  let extCalls : List Call :=
    if config_scale.use_floatingip || config_scale.redis_server_present then
      [.findExternalNetwork]
    else []
  let external_network := resolvedExternalNet config_scale env
  let looped := createRouters u.user_name external_network env.router_step 0
    config_scale.routers_per_user
  let u2 : User := { keyed.1 with router_list := keyed.1.router_list ++ looped.1 }
  let trace := Call.neutronClientNew creden :: Call.novaClientNew creden_nova ::
    (keyed.2 ++ extCalls ++ looped.2.1)
  let result : Except PyError Unit :=
    match looped.2.2 with
    | none => .ok ()
    | some e => .error e
  (result, u2, trace)

/-- Environment for `delete_resources`: the outcomes of the delegated
public-key removal, of each `delete_router` call by position, and of the final
identity-service delete. -/
structure DeleteEnv where
  removeKeyResult : Except PyError Unit
  routerDeleteResult : Nat → Except PyError Unit
  userDeleteResult : Except PyError Unit

/-- The router-teardown loop of `delete_resources`: delete each router in list
order, aborting at the first delegated failure. -/
def deleteRouters (res : Nat → Except PyError Unit) :
    Nat → List Router → Except PyError Unit × List Call
  | _, [] => (.ok (), [])
  | k, _ :: rs =>
    match res k with
    | .ok _ =>
      let rest := deleteRouters res (k + 1) rs
      (rest.1, .routerDelete :: rest.2)
    | .error e => (.error e, [.routerDelete])

/-- `User.delete_resources`: remove the public key when a keypair exists, delete
every router in list order, then delete the identity account by the stored user
id; any delegated failure propagates and aborts the remaining steps. -/
def delete_resources (u : User) (env : DeleteEnv) :
    Except PyError Unit × List Call :=
  let keyStep : Except PyError Unit × List Call :=
    if u.key_pair.isSome then
      match env.removeKeyResult with
      | .ok _ => (.ok (), [.keyPairRemove])
      | .error e => (.error e, [.keyPairRemove])
    else (.ok (), [])
  match keyStep with
  | (.error e, calls) => (.error e, calls)
  | (.ok _, calls) =>
    match deleteRouters env.routerDeleteResult 0 u.router_list with
    | (.error e, rcalls) => (.error e, calls ++ rcalls)
    | (.ok _, rcalls) =>
      match env.userDeleteResult with
      | .ok _ => (.ok (), calls ++ rcalls ++ [.usersDelete u.user_id])
      | .error e => (.error e, calls ++ rcalls ++ [.usersDelete u.user_id])

/-- `User.get_first_network`: the first network of the first router, or `None`
when the router list is empty; a pure read of `router_list`. -/
def User.get_first_network (u : User) : Option String :=
  match u.router_list with
  | [] => none
  | r :: _ => r.get_first_network

/-- `User.get_all_instances`: accumulate, in router-list order, the instances
each router reports; a pure read of `router_list`. -/
def User.get_all_instances (u : User) : List String :=
  u.router_list.foldl (fun acc r => acc ++ r.get_all_instances) []

/-! ### Concrete fixtures used by the witness theorems -/

/-- A scale configuration with no keypair file, floating IPs disabled, no redis
server key and zero routers. -/
def cfgPlain : ScaleCfg :=
  { public_key_file := none, use_floatingip := false,
    redis_server_present := false, routers_per_user := 0 }

/-- A tenant over `cfgPlain`. -/
def tenantPlain : Tenant :=
  { tenant_name := "t", tenant_id := "tid",
    kloud := { auth_url := "u", scale_cfg := cfgPlain } }

/-- A concrete identity account. -/
def acctAlice : Account :=
  { id := "id1", name := "alice" }

/-- A construction environment where the first create succeeds and the listing
holds one role named `admin`. -/
def envInitOk : InitEnv :=
  { firstCreate := .ok acctAlice, users_list := [],
    retryCreate := .ok acctAlice,
    roles_list := [{ id := "r1", name := "admin" }],
    addRoleResult := .ok () }

/-- Like `envInitOk` but the matching role comes second in the listing. -/
def envInitTwoRoles : InitEnv :=
  { envInitOk with
    roles_list := [{ id := "r1", name := "member" },
                   { id := "r2", name := "admin" }] }

/-- Like `envInitOk` but no role in the listing matches `admin`. -/
def envInitNoMatch : InitEnv :=
  { envInitOk with roles_list := [{ id := "r1", name := "member" }] }

/-- The spec scenario configuration: two routers per user, floating IPs off, no
redis server key, no public-key file. -/
def cfgTwoRouters : ScaleCfg :=
  { public_key_file := none, use_floatingip := false,
    redis_server_present := false, routers_per_user := 2 }

/-- A tenant over `cfgTwoRouters`. -/
def tenantTwoRouters : Tenant :=
  { tenant_name := "t", tenant_id := "tid",
    kloud := { auth_url := "u", scale_cfg := cfgTwoRouters } }

/-- The user `alice` of the spec scenario, freshly constructed. -/
def userAlice : User :=
  { user_name := "alice", tenant := tenantTwoRouters, user_id := some "id1" }

/-- A creation environment where every delegated router call succeeds. -/
def envCreateOk : CreateEnv :=
  { external_net := "ext-net", router_step := fun _ => .ok }

/-- A tenant like `tenantTwoRouters` but with three routers per user. -/
def tenantThreeRouters : Tenant :=
  { tenant_name := "t", tenant_id := "tid",
    kloud := { auth_url := "u",
               scale_cfg := { cfgTwoRouters with routers_per_user := 3 } } }

/-- The user `alice` over `tenantThreeRouters`. -/
def userAliceThree : User :=
  { user_name := "alice", tenant := tenantThreeRouters, user_id := some "id1" }

/-- A creation environment whose delegated network-resource call fails at
router index 1. -/
def envCreateFailAt1 : CreateEnv :=
  { external_net := "ext-net",
    router_step := fun j =>
      if j = 1 then .resourceFail (.otherClientError "neterr") else .ok }

/-- A teardown environment where every delegated call succeeds. -/
def envDeleteOk : DeleteEnv :=
  { removeKeyResult := .ok (), routerDeleteResult := fun _ => .ok (),
    userDeleteResult := .ok () }

/-- A user with no keypair and no routers, as left by construction alone. -/
def userBare : User :=
  { user_name := "alice", tenant := tenantPlain, user_id := some "id1" }

/-- A router reporting one network and two instances. -/
def routerA : Router :=
  { router_name := some "alice-R0", external_network := none,
    first_network := some "netA", instances := ["vmA1", "vmA2"] }

/-- A router reporting no network and one instance. -/
def routerB : Router :=
  { router_name := some "alice-R1", external_network := none,
    first_network := none, instances := ["vmB1"] }

/-- A user owning `routerA` then `routerB`. -/
def userTwoRouters : User :=
  { userAlice with router_list := [routerA, routerB] }

/-! ### Theorems settling the claims -/

/-- C1: on a create failure that is a `Conflict` with HTTP status 409, the
provisioner lists all identity accounts, deletes the first whose name matches
the requested user name, and retries the create exactly once, the delete issued
before the retry create; any creation failure that is not such a conflict
propagates unchanged with no listing, no delete and no retry. -/
theorem C1_conflict_repair (user_name tenant_id : String) (env : GetUserEnv) :
    (∀ u : Account, env.firstCreate = .error (.conflict 409) →
      env.users_list.find? (fun a => a.name == user_name) = some u →
      get_user user_name tenant_id env =
        (env.retryCreate,
         [createUserCall user_name tenant_id, .usersList,
          .usersDelete (some u.id), createUserCall user_name tenant_id]))
    ∧ (∀ e : PyError, env.firstCreate = .error e → e.isConflict409 = false →
      get_user user_name tenant_id env =
        (.error e, [createUserCall user_name tenant_id])) := by
  constructor
  · intro u h1 h2
    simp [get_user, h1, h2]
  · intro e h1 h2
    cases e with
    | conflict s =>
      have hs : s ≠ 409 := by simpa [PyError.isConflict409] using h2
      simp [get_user, h1, hs]
    | otherClientError t => simp [get_user, h1]
    | exception m => simp [get_user, h1]

/-- Witness for C1 at concrete inputs: a 409 conflict with a stale account in
the listing triggers list, delete, retry in that order; a non-conflict error
propagates unchanged. -/
theorem C1_conflict_repair_witness :
    get_user "alice" "tid"
      { firstCreate := .error (.conflict 409),
        users_list := [{ id := "id9", name := "alice" }],
        retryCreate := .ok { id := "id10", name := "alice" } } =
      (.ok { id := "id10", name := "alice" },
       [createUserCall "alice" "tid", .usersList,
        .usersDelete (some "id9"), createUserCall "alice" "tid"])
    ∧ get_user "alice" "tid"
      { firstCreate := .error (.otherClientError "boom"),
        users_list := [], retryCreate := .ok { id := "x", name := "y" } } =
      (.error (.otherClientError "boom"), [createUserCall "alice" "tid"]) := by
  constructor
  · exact (C1_conflict_repair "alice" "tid" _).1
      { id := "id9", name := "alice" } rfl rfl
  · exact (C1_conflict_repair "alice" "tid" _).2
      (.otherClientError "boom") rfl rfl

/-- C8: when the first create fails with a 409 conflict but no account in the
subsequent listing has the requested name, construction fails with a bare
`Exception` whose message carries the user name, and no retry create call is
made (the trace holds exactly one create call and the listing). -/
theorem C8_repair_exhaustion (user_name tenant_id : String) (env : GetUserEnv)
    (hc : env.firstCreate = .error (.conflict 409))
    (hn : ∀ a ∈ env.users_list, ¬ a.name = user_name) :
    get_user user_name tenant_id env =
      (.error (.exception ("Cannot find stale user:" ++ user_name)),
       [.usersCreate user_name user_name "kloudbuster@localhost" tenant_id,
        .usersList]) := by
  have hfind : env.users_list.find? (fun a => a.name == user_name) = none := by
    rw [List.find?_eq_none]
    intro a ha
    simpa using hn a ha
  simp [get_user, hc, hfind, createUserCall]

/-- Witness for C8 at a concrete input: listing holds only differently named
accounts, so the repair path raises the descriptive error after one create. -/
theorem C8_repair_exhaustion_witness :
    get_user "alice" "tid"
      { firstCreate := .error (.conflict 409),
        users_list := [{ id := "id3", name := "bob" }],
        retryCreate := .ok { id := "id4", name := "alice" } } =
      (.error (.exception "Cannot find stale user:alice"),
       [.usersCreate "alice" "alice" "kloudbuster@localhost" "tid",
        .usersList]) := by
  exact C8_repair_exhaustion "alice" "tid" _ rfl (by decide)

/-- A list finds `a` at the first position where the predicate holds: every
element before it fails the predicate and `a` satisfies it. -/
lemma find?_first_match {α : Type} (p : α → Bool) (pre post : List α) (a : α)
    (hpre : ∀ x ∈ pre, p x = false) (ha : p a = true) :
    (pre ++ a :: post).find? p = some a := by
  induction pre with
  | nil => simp [List.find?, ha]
  | cons x xs ih =>
    have hx := hpre x (by simp)
    simp only [List.cons_append, List.find?, hx]
    exact ih fun y hy => hpre y (by simp [hy])

/-- When the first create succeeds and the role binding succeeds, `__init__`
returns the fully initialised user and issues exactly the create-user call, the
role listing and the role binding, in that order. -/
lemma user_init_ok (user_name user_role : String) (tenant : Tenant)
    (env : InitEnv) (acct : Account)
    (hc : env.firstCreate = .ok acct)
    (hr : env.addRoleResult = .ok ()) :
    user_init user_name tenant user_role env =
      (.ok { user_name := user_name, tenant := tenant,
             admin_user := some acct, user_id := some acct.id },
       [.usersCreate user_name user_name "kloudbuster@localhost" tenant.tenant_id,
        .rolesList,
        .addUserRole acct.id (env.roles_list.find? fun r => r.name == user_role)
          tenant.tenant_id]) := by
  simp [user_init, get_user, InitEnv.toGetUserEnv, hc, hr, createUserCall]

/-- C3: when the first create succeeds (the user name is not already present, so
the identity service accepts the create) and the role binding succeeds,
construction issues exactly one create-user call — password equal to the user
name, the fixed placeholder email, the tenant id — and exactly one role-binding
call, and the resulting `user_id` is the id of the newly created account. -/
theorem C3_fresh_user_creation (user_name user_role : String) (tenant : Tenant)
    (env : InitEnv) (acct : Account)
    (hc : env.firstCreate = .ok acct)
    (hr : env.addRoleResult = .ok ()) :
    user_init user_name tenant user_role env =
      (.ok { user_name := user_name, tenant := tenant,
             admin_user := some acct, user_id := some acct.id },
       [.usersCreate user_name user_name "kloudbuster@localhost" tenant.tenant_id,
        .rolesList,
        .addUserRole acct.id (env.roles_list.find? fun r => r.name == user_role)
          tenant.tenant_id])
    ∧ ((user_init user_name tenant user_role env).2.filter Call.isUsersCreate).length = 1
    ∧ ((user_init user_name tenant user_role env).2.filter Call.isAddUserRole).length = 1 := by
  have h := user_init_ok user_name user_role tenant env acct hc hr
  refine ⟨h, ?_, ?_⟩ <;>
    simp [h, Call.isUsersCreate, Call.isAddUserRole, List.filter]

/-- Witness for C3 at a concrete input. -/
theorem C3_fresh_user_creation_witness :
    user_init "alice" tenantPlain "admin" envInitOk =
      (.ok { user_name := "alice", tenant := tenantPlain,
             admin_user := some acctAlice, user_id := some "id1" },
       [.usersCreate "alice" "alice" "kloudbuster@localhost" "tid",
        .rolesList,
        .addUserRole "id1" (some { id := "r1", name := "admin" }) "tid"]) := by
  have h := (C3_fresh_user_creation "alice" "admin" tenantPlain envInitOk
    acctAlice rfl rfl).1
  exact h.trans rfl

/-- C5: the role bound during construction is the first role of the identity
listing whose name equals the requested role name; when no role matches, the
binding call is still made with a `None` role reference and construction does
not fail with a role-not-found error. -/
theorem C5_role_binding (user_name user_role : String) (tenant : Tenant)
    (env : InitEnv) (acct : Account)
    (hc : env.firstCreate = .ok acct)
    (hr : env.addRoleResult = .ok ()) :
    (∀ pre role post, env.roles_list = pre ++ role :: post →
      (∀ r ∈ pre, ¬ r.name = user_role) → role.name = user_role →
      Call.addUserRole acct.id (some role) tenant.tenant_id
        ∈ (user_init user_name tenant user_role env).2)
    ∧ ((∀ r ∈ env.roles_list, ¬ r.name = user_role) →
      Call.addUserRole acct.id none tenant.tenant_id
        ∈ (user_init user_name tenant user_role env).2
      ∧ ∃ v, (user_init user_name tenant user_role env).1 = .ok v) := by
  have h := user_init_ok user_name user_role tenant env acct hc hr
  constructor
  · intro pre role post hlist hpre hrole
    have hfind : env.roles_list.find? (fun r => r.name == user_role) = some role := by
      rw [hlist]
      exact find?_first_match _ pre post role
        (fun x hx => by simpa using hpre x hx) (by simpa using hrole)
    simp [h, hfind]
  · intro hnone
    have hfind : env.roles_list.find? (fun r => r.name == user_role) = none := by
      rw [List.find?_eq_none]
      intro r hrl
      simpa using hnone r hrl
    refine ⟨by simp [h, hfind], ?_⟩
    exact ⟨_, congrArg Prod.fst h⟩

/-- Witness for C5 at a concrete input: the second role is the first name
match; with a disjoint listing the binding call carries `None` and
construction succeeds. -/
theorem C5_role_binding_witness :
    (Call.addUserRole "id1" (some { id := "r2", name := "admin" }) "tid"
      ∈ (user_init "alice" tenantPlain "admin" envInitTwoRoles).2)
    ∧ (Call.addUserRole "id1" none "tid"
      ∈ (user_init "alice" tenantPlain "admin" envInitNoMatch).2) := by
  constructor
  · exact (C5_role_binding "alice" "admin" tenantPlain envInitTwoRoles
      acctAlice rfl rfl).1 [{ id := "r1", name := "member" }]
      { id := "r2", name := "admin" } [] rfl (by decide) rfl
  · exact ((C5_role_binding "alice" "admin" tenantPlain envInitNoMatch
      acctAlice rfl rfl).2 (by decide)).1

/-- The creation loop with every delegated call succeeding: for indices
`k .. k+n-1` it yields the routers named in index order, the paired
create-router and create-network-resources calls in index order, and no
error. -/
lemma createRouters_ok (name : String) (ext : Option String)
    (step : Nat → RouterStep) (hok : ∀ j, step j = .ok) :
    ∀ n k, createRouters name ext step k n =
      ((List.range' k n).map fun j =>
        ({ router_name := some (name ++ "-R" ++ Nat.repr j),
           external_network := ext } : Router),
       (List.range' k n).flatMap (fun j =>
         [Call.routerCreate (name ++ "-R" ++ Nat.repr j) ext,
          Call.routerCreateNetworkResources]),
       none) := by
  intro n
  induction n with
  | zero => intro k; simp [createRouters]
  | succ m ih =>
    intro k
    simp [createRouters, hok k, ih (k + 1), List.range'_succ]

/-- Filtering a two-element bundle per list element keeps exactly the first
component when the predicate accepts it and rejects the second. -/
lemma filter_bind_pair {α β : Type} (p : β → Bool) (f g : α → β)
    (hf : ∀ a, p (f a) = true) (hg : ∀ a, p (g a) = false) :
    ∀ l : List α, (l.flatMap fun a => [f a, g a]).filter p = l.map f := by
  intro l
  induction l with
  | nil => simp
  | cons x xs ih => simp [hf x, hg x, ih]

/-- C2: with every delegated router call succeeding, `create_resources` on a
freshly constructed user yields a router list of length exactly
`routers_per_user`, whose entry at index `k` was created under the name
`<user_name>-R<k>`, and the `create_router` calls appear in the trace
sequentially in index order `0 .. N-1`. -/
theorem C2_router_creation (u : User) (env : CreateEnv)
    (hok : ∀ j, env.router_step j = .ok)
    (hinit : u.router_list = []) :
    (create_resources u env).1 = .ok ()
    ∧ (create_resources u env).2.1.router_list.length
        = u.tenant.kloud.scale_cfg.routers_per_user
    ∧ (create_resources u env).2.1.router_list
        = (List.range u.tenant.kloud.scale_cfg.routers_per_user).map (fun k =>
            { router_name := some (u.user_name ++ "-R" ++ Nat.repr k),
              external_network := resolvedExternalNet u.tenant.kloud.scale_cfg env })
    ∧ (create_resources u env).2.2.filter Call.isRouterCreate
        = (List.range u.tenant.kloud.scale_cfg.routers_per_user).map (fun k =>
            Call.routerCreate (u.user_name ++ "-R" ++ Nat.repr k)
              (resolvedExternalNet u.tenant.kloud.scale_cfg env)) := by
  have hcr := createRouters_ok u.user_name
    (resolvedExternalNet u.tenant.kloud.scale_cfg env) env.router_step hok
    u.tenant.kloud.scale_cfg.routers_per_user 0
  have hfb := filter_bind_pair Call.isRouterCreate
    (fun j => Call.routerCreate (u.user_name ++ "-R" ++ Nat.repr j)
      (resolvedExternalNet u.tenant.kloud.scale_cfg env))
    (fun _ => Call.routerCreateNetworkResources)
    (fun _ => rfl) (fun _ => rfl)
    (List.range' 0 u.tenant.kloud.scale_cfg.routers_per_user)
  cases hpk : strTruthy u.tenant.kloud.scale_cfg.public_key_file <;>
  cases hfl : (u.tenant.kloud.scale_cfg.use_floatingip
      || u.tenant.kloud.scale_cfg.redis_server_present) <;>
    refine ⟨?_, ?_, ?_, ?_⟩ <;>
      simp [create_resources, hpk, hfl, hcr, hinit, hfb,
        Call.isRouterCreate, List.range_eq_range']

/-- Witness for C2: the spec scenario user `alice` with two routers per user
gets routers `alice-R0` and `alice-R1`, in that order. -/
theorem C2_router_creation_witness :
    (create_resources userAlice envCreateOk).1 = .ok ()
    ∧ (create_resources userAlice envCreateOk).2.1.router_list.length = 2
    ∧ (create_resources userAlice envCreateOk).2.1.router_list
        = [{ router_name := some "alice-R0", external_network := none },
           { router_name := some "alice-R1", external_network := none }]
    ∧ (create_resources userAlice envCreateOk).2.2.filter Call.isRouterCreate
        = [.routerCreate "alice-R0" none, .routerCreate "alice-R1" none] := by
  have h := C2_router_creation userAlice envCreateOk (fun _ => rfl) rfl
  exact ⟨h.1, h.2.1, h.2.2.1.trans rfl, h.2.2.2.trans rfl⟩

/-- Every call the creation loop issues is either a
`create_network_resources` call or a `create_router` call carrying exactly the
external network the loop was given; in particular the loop never performs an
external-network lookup. -/
lemma createRouters_calls_cases (name : String) (ext : Option String)
    (step : Nat → RouterStep) :
    ∀ n k c, c ∈ (createRouters name ext step k n).2.1 →
      c = Call.routerCreateNetworkResources ∨ ∃ nm, c = Call.routerCreate nm ext := by
  intro n
  induction n with
  | zero => intro k c hc; simp [createRouters] at hc
  | succ m ih =>
    intro k c hc
    cases hstep : step k with
    | ok =>
      simp only [createRouters, hstep, List.mem_cons] at hc
      rcases hc with h | h | h
      · exact .inr ⟨_, h⟩
      · exact .inl h
      · exact ih (k + 1) c h
    | createFail e =>
      simp only [createRouters, hstep, List.mem_singleton] at hc
      exact .inr ⟨_, hc⟩
    | resourceFail e =>
      simp only [createRouters, hstep, List.mem_cons, List.mem_singleton,
        List.not_mem_nil, or_false] at hc
      rcases hc with h | h
      · exact .inr ⟨_, h⟩
      · exact .inl h

/-- When the creation loop is given no external network, every router it
appends has `external_network = None`. -/
lemma createRouters_routers_ext_none (name : String) (step : Nat → RouterStep) :
    ∀ n k r, r ∈ (createRouters name none step k n).1 →
      r.external_network = none := by
  intro n
  induction n with
  | zero => intro k r hr; simp [createRouters] at hr
  | succ m ih =>
    intro k r hr
    cases hstep : step k with
    | ok =>
      simp only [createRouters, hstep, List.mem_cons] at hr
      rcases hr with h | h
      · rw [h]
      · exact ih (k + 1) r h
    | createFail e =>
      simp only [createRouters, hstep, List.mem_singleton] at hr
      rw [hr]
    | resourceFail e =>
      simp only [createRouters, hstep, List.mem_singleton] at hr
      rw [hr]

/-- C4: `create_resources` performs the external-network lookup exactly when
floating-IP usage is enabled or a redis server is configured; when neither
holds, no lookup occurs and every router is created with external network
`None`. -/
theorem C4_external_lookup (u : User) (env : CreateEnv)
    (hinit : u.router_list = []) :
    ((Call.findExternalNetwork ∈ (create_resources u env).2.2) ↔
      (u.tenant.kloud.scale_cfg.use_floatingip
        || u.tenant.kloud.scale_cfg.redis_server_present) = true)
    ∧ ((u.tenant.kloud.scale_cfg.use_floatingip
        || u.tenant.kloud.scale_cfg.redis_server_present) = false →
      (∀ name ext, Call.routerCreate name ext ∈ (create_resources u env).2.2 →
        ext = none)
      ∧ ∀ r ∈ (create_resources u env).2.1.router_list,
        r.external_network = none) := by
  cases hfl : (u.tenant.kloud.scale_cfg.use_floatingip
      || u.tenant.kloud.scale_cfg.redis_server_present) with
  | true =>
    refine ⟨?_, by simp⟩
    cases hpk : strTruthy u.tenant.kloud.scale_cfg.public_key_file <;>
      simp [create_resources, hpk, hfl]
  | false =>
    have hres : resolvedExternalNet u.tenant.kloud.scale_cfg env = none := by
      simp [resolvedExternalNet, hfl]
    have hnoext : Call.findExternalNetwork ∉
        (createRouters u.user_name
          (resolvedExternalNet u.tenant.kloud.scale_cfg env) env.router_step 0
          u.tenant.kloud.scale_cfg.routers_per_user).2.1 := by
      intro hm
      rcases createRouters_calls_cases _ _ _ _ _ _ hm with h | ⟨nm, h⟩ <;>
        simp at h
    have hrc : ∀ name ext, Call.routerCreate name ext ∈
        (createRouters u.user_name
          (resolvedExternalNet u.tenant.kloud.scale_cfg env) env.router_step 0
          u.tenant.kloud.scale_cfg.routers_per_user).2.1 → ext = none := by
      intro name ext hm
      rcases createRouters_calls_cases _ _ _ _ _ _ hm with h | ⟨nm, h⟩
      · simp at h
      · rw [hres] at h
        simp only [Call.routerCreate.injEq] at h
        exact h.2
    have hrl : ∀ r ∈ (createRouters u.user_name
        (resolvedExternalNet u.tenant.kloud.scale_cfg env) env.router_step 0
        u.tenant.kloud.scale_cfg.routers_per_user).1,
        r.external_network = none := by
      rw [hres]
      exact createRouters_routers_ext_none _ _ _ _
    constructor
    · cases hpk : strTruthy u.tenant.kloud.scale_cfg.public_key_file <;>
        simp [create_resources, hpk, hfl, hnoext]
    · intro _
      constructor
      · intro name ext hm
        cases hpk : strTruthy u.tenant.kloud.scale_cfg.public_key_file <;>
          · simp [create_resources, hpk, hfl] at hm
            exact hrc name ext hm
      · intro r hr
        cases hpk : strTruthy u.tenant.kloud.scale_cfg.public_key_file <;>
          · simp [create_resources, hpk, hfl, hinit] at hr
            exact hrl r hr

/-- Witness for C4: the spec scenario (`alice`, floating IPs off, no redis
server) performs no external-network lookup and creates both routers with
external network `None`. -/
theorem C4_external_lookup_witness :
    ¬ (Call.findExternalNetwork ∈ (create_resources userAlice envCreateOk).2.2)
    ∧ ∀ r ∈ (create_resources userAlice envCreateOk).2.1.router_list,
      r.external_network = none := by
  have h := C4_external_lookup userAlice envCreateOk rfl
  refine ⟨?_, (h.2 rfl).2⟩
  intro hm
  exact absurd (h.1.mp hm) (by decide)

/-- The teardown loop with every delegated call succeeding issues one
`delete_router` call per router, in list order, and reports success. -/
lemma deleteRouters_ok (res : Nat → Except PyError Unit)
    (hok : ∀ j, res j = .ok ()) :
    ∀ (l : List Router) (k : Nat),
      deleteRouters res k l = (.ok (), l.map fun _ => Call.routerDelete) := by
  intro l
  induction l with
  | nil => intro k; simp [deleteRouters]
  | cons r rs ih => intro k; simp [deleteRouters, hok k, ih (k + 1)]

/-- `delete_resources` with every delegated call succeeding: the public-key
removal happens exactly when a keypair exists, then one `delete_router` per
router in list order, then exactly one identity-service delete of the stored
user id. -/
lemma delete_resources_ok (u : User) (env : DeleteEnv)
    (h1 : env.removeKeyResult = .ok ())
    (h2 : ∀ j, env.routerDeleteResult j = .ok ())
    (h3 : env.userDeleteResult = .ok ()) :
    delete_resources u env =
      (.ok (),
       (if u.key_pair.isSome then [Call.keyPairRemove] else [])
         ++ u.router_list.map (fun _ => Call.routerDelete)
         ++ [Call.usersDelete u.user_id]) := by
  cases hkp : u.key_pair.isSome <;>
    simp [delete_resources, hkp, h1, h3, deleteRouters_ok _ h2]

/-- C6: `delete_resources` proceeds in the fixed order keypair removal (if and
only if a keypair exists), then each router in list order, then exactly one
identity-service delete of the stored user id; on a user with no keypair and
no routers the trace is exactly that single identity-service delete call. -/
theorem C6_delete_order (u : User) (env : DeleteEnv)
    (h1 : env.removeKeyResult = .ok ())
    (h2 : ∀ j, env.routerDeleteResult j = .ok ())
    (h3 : env.userDeleteResult = .ok ()) :
    (delete_resources u env).2 =
      (if u.key_pair.isSome then [Call.keyPairRemove] else [])
        ++ u.router_list.map (fun _ => Call.routerDelete)
        ++ [Call.usersDelete u.user_id]
    ∧ (u.key_pair = none → u.router_list = [] →
        (delete_resources u env).2 = [Call.usersDelete u.user_id]) := by
  have h := delete_resources_ok u env h1 h2 h3
  constructor
  · rw [h]
  · intro hkp hrl
    rw [h, hkp, hrl]
    simp

/-- Witness for C6: a user with no keypair and no routers produces exactly one
identity-service delete call. -/
theorem C6_delete_order_witness :
    (delete_resources userBare envDeleteOk).2 = [Call.usersDelete (some "id1")] := by
  exact ((C6_delete_order userBare envDeleteOk rfl (fun _ => rfl) rfl).2
    rfl rfl).trans rfl

/-- C7: `delete_resources` succeeds on every user state — in particular any
partially constructed one with no keypair or an empty or partial router list —
provided the delegated keypair, router and identity-service calls succeed on
the resources that exist. -/
theorem C7_delete_total (u : User) (env : DeleteEnv)
    (h1 : env.removeKeyResult = .ok ())
    (h2 : ∀ j, env.routerDeleteResult j = .ok ())
    (h3 : env.userDeleteResult = .ok ()) :
    (delete_resources u env).1 = .ok () := by
  rw [delete_resources_ok u env h1 h2 h3]

/-- Witness for C7: a freshly constructed user (no keypair, empty router
list, `user_id` set) tears down without error. -/
theorem C7_delete_total_witness :
    (delete_resources userBare envDeleteOk).1 = .ok () := by
  exact C7_delete_total userBare envDeleteOk rfl (fun _ => rfl) rfl

/-- The creation loop when the first `i` iterations succeed and the delegated
call at iteration `i` fails: the loop reports that error, the router list holds
exactly `i + 1` entries, and the first `i` of them are the successfully created
routers in index order. -/
lemma createRouters_fail (name : String) (ext : Option String)
    (step : Nat → RouterStep) (e : PyError) :
    ∀ i n k, i < n →
      (∀ j, j < i → step (k + j) = .ok) →
      (step (k + i) = .createFail e ∨ step (k + i) = .resourceFail e) →
      (createRouters name ext step k n).2.2 = some e
      ∧ (createRouters name ext step k n).1.length = i + 1
      ∧ (createRouters name ext step k n).1.take i =
          (List.range' k i).map (fun j =>
            { router_name := some (name ++ "-R" ++ Nat.repr j),
              external_network := ext }) := by
  intro i
  induction i with
  | zero =>
    intro n k hn hok hfail
    obtain ⟨m, rfl⟩ : ∃ m, n = m + 1 := ⟨n - 1, by omega⟩
    rw [Nat.add_zero] at hfail
    rcases hfail with h | h <;> simp [createRouters, h]
  | succ i ih =>
    intro n k hn hok hfail
    obtain ⟨m, rfl⟩ : ∃ m, n = m + 1 := ⟨n - 1, by omega⟩
    have h0 : step k = .ok := by
      have := hok 0 (by omega)
      rwa [Nat.add_zero] at this
    have hok1 : ∀ j, j < i → step (k + 1 + j) = .ok := by
      intro j hj
      have := hok (j + 1) (by omega)
      rwa [show k + (j + 1) = k + 1 + j by omega] at this
    have hfail1 : step (k + 1 + i) = .createFail e
        ∨ step (k + 1 + i) = .resourceFail e := by
      rwa [show k + 1 + i = k + (i + 1) by omega]
    obtain ⟨he, hlen, htake⟩ := ih m (k + 1) (by omega) hok1 hfail1
    refine ⟨?_, ?_, ?_⟩ <;>
      simp [createRouters, h0, he, hlen, htake, List.range'_succ]

/-- How many `delete_router` calls a call trace holds. -/
lemma filter_routerDelete_map_const (l : List Router) :
    ((l.map fun _ => Call.routerDelete).filter Call.isRouterDelete).length
      = l.length := by
  induction l with
  | nil => rfl
  | cons r rs ih => simp [Call.isRouterDelete, ih]

/-- C10: each router is appended to `router_list` before its creation call, so
when the delegated router calls succeed up to index `k` and fail at index `k`,
`create_resources` propagates the error and leaves `router_list` with exactly
`k + 1` entries — the `k` created routers, in index order, plus the failing
one — and a subsequent successful `delete_resources` issues one
`delete_router` call for each of the `k + 1` entries. -/
theorem C10_partial_failure (u : User) (env : CreateEnv) (k : Nat) (e : PyError)
    (hinit : u.router_list = [])
    (hk : k < u.tenant.kloud.scale_cfg.routers_per_user)
    (hok : ∀ j, j < k → env.router_step j = .ok)
    (hfail : env.router_step k = .createFail e
      ∨ env.router_step k = .resourceFail e) :
    (create_resources u env).1 = .error e
    ∧ (create_resources u env).2.1.router_list.length = k + 1
    ∧ (create_resources u env).2.1.router_list.take k
        = (List.range k).map (fun j =>
            { router_name := some (u.user_name ++ "-R" ++ Nat.repr j),
              external_network := resolvedExternalNet u.tenant.kloud.scale_cfg env })
    ∧ ∀ denv : DeleteEnv, denv.removeKeyResult = .ok () →
        (∀ j, denv.routerDeleteResult j = .ok ()) →
        denv.userDeleteResult = .ok () →
        ((delete_resources (create_resources u env).2.1 denv).2.filter
            Call.isRouterDelete).length = k + 1 := by
  have hcr := createRouters_fail u.user_name
    (resolvedExternalNet u.tenant.kloud.scale_cfg env) env.router_step e k
    u.tenant.kloud.scale_cfg.routers_per_user 0 hk
    (fun j hj => by simpa using hok j hj)
    (by simpa using hfail)
  obtain ⟨he, hlen, htake⟩ := hcr
  have hmain : (create_resources u env).1 = .error e
      ∧ (create_resources u env).2.1.router_list.length = k + 1
      ∧ (create_resources u env).2.1.router_list.take k
        = (List.range k).map (fun j =>
            { router_name := some (u.user_name ++ "-R" ++ Nat.repr j),
              external_network := resolvedExternalNet u.tenant.kloud.scale_cfg env }) := by
    cases hpk : strTruthy u.tenant.kloud.scale_cfg.public_key_file <;>
    cases hfl : (u.tenant.kloud.scale_cfg.use_floatingip
        || u.tenant.kloud.scale_cfg.redis_server_present) <;>
      refine ⟨?_, ?_, ?_⟩ <;>
        simp [create_resources, hpk, hfl, he, hlen, htake, hinit,
          List.range_eq_range']
  refine ⟨hmain.1, hmain.2.1, hmain.2.2, ?_⟩
  intro denv hd1 hd2 hd3
  rw [delete_resources_ok _ denv hd1 hd2 hd3]
  cases hkp : (create_resources u env).2.1.key_pair.isSome <;>
    simp [hkp, Call.isRouterDelete, filter_routerDelete_map_const, hmain.2.1]

/-- Witness for C10: with three routers configured and the network-resource
call failing at index 1, the router list holds the router `alice-R0` plus the
failing router, and teardown issues two `delete_router` calls. -/
theorem C10_partial_failure_witness :
    (create_resources userAliceThree envCreateFailAt1).1
      = .error (.otherClientError "neterr")
    ∧ (create_resources userAliceThree envCreateFailAt1).2.1.router_list.length = 2
    ∧ (create_resources userAliceThree envCreateFailAt1).2.1.router_list.take 1
      = [{ router_name := some "alice-R0", external_network := none }]
    ∧ ((delete_resources (create_resources userAliceThree envCreateFailAt1).2.1
          envDeleteOk).2.filter Call.isRouterDelete).length = 2 := by
  have h := C10_partial_failure userAliceThree envCreateFailAt1 1
    (.otherClientError "neterr") rfl (by decide)
    (fun j hj => by interval_cases j; rfl) (.inr rfl)
  exact ⟨h.1, h.2.1, h.2.2.1.trans rfl,
    h.2.2.2 envDeleteOk rfl (fun _ => rfl) rfl⟩

/-- Concatenating per-router instance lists by repeated extension equals the
flattening of the mapped lists. -/
lemma foldl_extend_eq_flatten (l : List Router) :
    ∀ acc : List String,
      l.foldl (fun a r => a ++ r.get_all_instances) acc
        = acc ++ (l.map Router.get_all_instances).flatten := by
  induction l with
  | nil => intro acc; simp
  | cons r rs ih => intro acc; simp [ih, List.append_assoc]

/-- C9: `get_first_network` and `get_all_instances` are pure reads of the
user state: the former yields `None` on an empty router list and the first
network reported by the first router otherwise; the latter yields the
concatenation, in router-list order, of the instances each router reports,
empty for zero routers. -/
theorem C9_accessors (u : User) :
    (u.router_list = [] → u.get_first_network = none)
    ∧ (∀ r rs, u.router_list = r :: rs →
        u.get_first_network = r.get_first_network)
    ∧ u.get_all_instances = (u.router_list.map Router.get_all_instances).flatten := by
  refine ⟨?_, ?_, ?_⟩
  · intro h; simp [User.get_first_network, h]
  · intro r rs h; simp [User.get_first_network, h]
  · simpa using foldl_extend_eq_flatten u.router_list []

/-- Witness for C9: on a user owning two routers, the first network is that of
the first router and the instances concatenate in order; on a bare user the
accessors return the empty sentinels. -/
theorem C9_accessors_witness :
    userTwoRouters.get_first_network = some "netA"
    ∧ userTwoRouters.get_all_instances = ["vmA1", "vmA2", "vmB1"]
    ∧ userBare.get_first_network = none
    ∧ userBare.get_all_instances = [] := by
  refine ⟨?_, ?_, ?_, ?_⟩
  · exact ((C9_accessors userTwoRouters).2.1 routerA [routerB] rfl).trans rfl
  · exact (C9_accessors userTwoRouters).2.2.trans rfl
  · exact (C9_accessors userBare).1 rfl
  · exact (C9_accessors userBare).2.2.trans rfl

end ScaleUsers
